import Mathlib

/-!
Verification of the chat-analyzer engine in `src/app.py`.

Modelling conventions:
* Python floats are modelled as rationals: the scoring code only performs
  order comparisons and exact sums/quotients on them, which agree with the
  rational model on every value the program produces.
* Timestamps are minutes since 0001-01-01 00:00 (so that a calendar date is
  the timestamp integer-divided by 1440, matching `datetime.date` /
  `datetime.toordinal`), at minute precision as produced by the parser.
* `emoji.EMOJI_DATA` is external library data, so functions that consult it
  take the membership predicate as an explicit argument.
-/

/-- `R` sub-score chain of `calculate_lovescore` (src/app.py lines 23-27). -/
def loveR (T : ℚ) : ℤ :=
  if T < 2 then 25 else if T < 5 then 15 else if T < 10 then 10
  else if T < 30 then 5 else -15

/-- `E` sub-score chain of `calculate_lovescore` (lines 28-32). -/
def loveE (e : ℚ) : ℤ :=
  if e > 0.5 then 20 else if e > 0.2 then 15 else if e > 0.1 then 10
  else if e > 0.05 then 5 else 0

/-- `M` sub-score chain of `calculate_lovescore` (lines 33-36). -/
def loveM (m : ℚ) : ℤ :=
  if m > 0.45 then 15 else if m > 0.35 then 10 else if m > 0.25 then 5 else -10

/-- `C` sub-score chain of `calculate_lovescore` (lines 37-40). -/
def loveC (d : ℚ) : ℤ :=
  if d > 0.8 then 15 else if d > 0.5 then 10 else if d > 0.3 then 5 else 0

/-- `calculate_lovescore` (src/app.py lines 21-42): returns
`(int(50 + R + E + M + C), R, E, M, C)`; the sum of integers is already an
integer so the `int(...)` truncation is the identity. -/
def calculate_lovescore (T e m d : ℚ) : ℤ × ℤ × ℤ × ℤ × ℤ :=
  (50 + loveR T + loveE e + loveM m + loveC d, loveR T, loveE e, loveM m, loveC d)

/-- `R` sub-score chain of `calculate_friendship_score` (lines 46-49). -/
def friendR (T : ℚ) : ℤ :=
  if T < 5 then 20 else if T < 15 then 10 else if T < 60 then 5 else 0

/-- `E` sub-score chain of `calculate_friendship_score` (lines 50-53). -/
def friendE (e : ℚ) : ℤ :=
  if e > 0.2 then 20 else if e > 0.1 then 15 else if e > 0.05 then 10 else 0

/-- `M` sub-score chain of `calculate_friendship_score` (lines 54-56). -/
def friendM (m : ℚ) : ℤ :=
  if m > 0.40 then 20 else if m > 0.30 then 10 else -5

/-- `C` sub-score chain of `calculate_friendship_score` (lines 57-59). -/
def friendC (d : ℚ) : ℤ :=
  if d > 0.6 then 20 else if d > 0.3 then 10 else 0

/-- `calculate_friendship_score` (src/app.py lines 44-61). -/
def calculate_friendship_score (T e m d : ℚ) : ℤ :=
  40 + friendR T + friendE e + friendM m + friendC d

/-! ### Tier structure of the piecewise sub-scores

Each sub-score is a chain of strict comparisons; the corresponding tiers
partition the rational line.  The tier predicates below are written as the
intervals the spec describes, independently of the `if`-chains, and we prove
that exactly one tier applies to every input and that the `if`-chain assigns
exactly the value of that tier. -/

/-- Tiers of the love `R` chain: `(-∞,2)`, `[2,5)`, `[5,10)`, `[10,30)`, `[30,∞)`. -/
def loveRtier (i : Fin 5) (T : ℚ) : Prop :=
  if i = 0 then T < 2
  else if i = 1 then 2 ≤ T ∧ T < 5
  else if i = 2 then 5 ≤ T ∧ T < 10
  else if i = 3 then 10 ≤ T ∧ T < 30
  else 30 ≤ T

/-- Values of the love `R` tiers, in tier order. -/
def loveRval (i : Fin 5) : ℤ :=
  if i = 0 then 25 else if i = 1 then 15 else if i = 2 then 10
  else if i = 3 then 5 else -15

lemma loveRtier_exu (T : ℚ) : ∃! i : Fin 5, loveRtier i T := by
  rcases lt_or_le T 2 with h1 | h1
  · refine ⟨0, by simp [loveRtier, h1], fun j hj => ?_⟩
    fin_cases j <;> simp [loveRtier] at hj ⊢ <;> linarith
  rcases lt_or_le T 5 with h2 | h2
  · refine ⟨1, by simp [loveRtier]; exact ⟨h1, h2⟩, fun j hj => ?_⟩
    fin_cases j <;> simp [loveRtier] at hj ⊢ <;> linarith
  rcases lt_or_le T 10 with h3 | h3
  · refine ⟨2, by simp [loveRtier]; exact ⟨h2, h3⟩, fun j hj => ?_⟩
    fin_cases j <;> simp [loveRtier] at hj ⊢ <;> linarith
  rcases lt_or_le T 30 with h4 | h4
  · refine ⟨3, by simp [loveRtier]; exact ⟨h3, h4⟩, fun j hj => ?_⟩
    fin_cases j <;> simp [loveRtier] at hj ⊢ <;> linarith
  · refine ⟨4, by simp [loveRtier, h4], fun j hj => ?_⟩
    fin_cases j <;> simp [loveRtier] at hj ⊢ <;> linarith

lemma loveR_tier_val (T : ℚ) (i : Fin 5) (h : loveRtier i T) : loveR T = loveRval i := by
  fin_cases i <;> simp [loveRtier] at h <;> unfold loveR <;> split_ifs <;>
    first
      | rfl
      | (exfalso; rcases h with ⟨h1, h2⟩; linarith)
      | (exfalso; linarith [h])

/-- Tiers of the love `E` chain: `(0.5,∞)`, `(0.2,0.5]`, `(0.1,0.2]`,
`(0.05,0.1]`, `(-∞,0.05]`. -/
def loveEtier (i : Fin 5) (e : ℚ) : Prop :=
  if i = 0 then 0.5 < e
  else if i = 1 then 0.2 < e ∧ e ≤ 0.5
  else if i = 2 then 0.1 < e ∧ e ≤ 0.2
  else if i = 3 then 0.05 < e ∧ e ≤ 0.1
  else e ≤ 0.05

/-- Values of the love `E` tiers, in tier order. -/
def loveEval (i : Fin 5) : ℤ :=
  if i = 0 then 20 else if i = 1 then 15 else if i = 2 then 10
  else if i = 3 then 5 else 0

lemma loveEtier_exu (e : ℚ) : ∃! i : Fin 5, loveEtier i e := by
  rcases lt_or_le (0.5 : ℚ) e with h1 | h1
  · refine ⟨0, by simp [loveEtier, h1], fun j hj => ?_⟩
    fin_cases j <;> simp [loveEtier] at hj ⊢ <;> linarith
  rcases lt_or_le (0.2 : ℚ) e with h2 | h2
  · refine ⟨1, by simp [loveEtier]; exact ⟨h2, h1⟩, fun j hj => ?_⟩
    fin_cases j <;> simp [loveEtier] at hj ⊢ <;> linarith
  rcases lt_or_le (0.1 : ℚ) e with h3 | h3
  · refine ⟨2, by simp [loveEtier]; exact ⟨h3, h2⟩, fun j hj => ?_⟩
    fin_cases j <;> simp [loveEtier] at hj ⊢ <;> linarith
  rcases lt_or_le (0.05 : ℚ) e with h4 | h4
  · refine ⟨3, by simp [loveEtier]; exact ⟨h4, h3⟩, fun j hj => ?_⟩
    fin_cases j <;> simp [loveEtier] at hj ⊢ <;> linarith
  · refine ⟨4, by simp [loveEtier, h4], fun j hj => ?_⟩
    fin_cases j <;> simp [loveEtier] at hj ⊢ <;> linarith

lemma loveE_tier_val (e : ℚ) (i : Fin 5) (h : loveEtier i e) : loveE e = loveEval i := by
  fin_cases i <;> simp [loveEtier] at h <;> unfold loveE <;> split_ifs <;>
    first
      | rfl
      | (exfalso; rcases h with ⟨h1, h2⟩; linarith)
      | (exfalso; linarith [h])

/-- Tiers of the love `M` chain: `(0.45,∞)`, `(0.35,0.45]`, `(0.25,0.35]`,
`(-∞,0.25]`. -/
def loveMtier (i : Fin 4) (m : ℚ) : Prop :=
  if i = 0 then 0.45 < m
  else if i = 1 then 0.35 < m ∧ m ≤ 0.45
  else if i = 2 then 0.25 < m ∧ m ≤ 0.35
  else m ≤ 0.25

/-- Values of the love `M` tiers, in tier order. -/
def loveMval (i : Fin 4) : ℤ :=
  if i = 0 then 15 else if i = 1 then 10 else if i = 2 then 5 else -10

lemma loveMtier_exu (m : ℚ) : ∃! i : Fin 4, loveMtier i m := by
  rcases lt_or_le (0.45 : ℚ) m with h1 | h1
  · refine ⟨0, by simp [loveMtier, h1], fun j hj => ?_⟩
    fin_cases j <;> simp [loveMtier] at hj ⊢ <;> linarith
  rcases lt_or_le (0.35 : ℚ) m with h2 | h2
  · refine ⟨1, by simp [loveMtier]; exact ⟨h2, h1⟩, fun j hj => ?_⟩
    fin_cases j <;> simp [loveMtier] at hj ⊢ <;> linarith
  rcases lt_or_le (0.25 : ℚ) m with h3 | h3
  · refine ⟨2, by simp [loveMtier]; exact ⟨h3, h2⟩, fun j hj => ?_⟩
    fin_cases j <;> simp [loveMtier] at hj ⊢ <;> linarith
  · refine ⟨3, by simp [loveMtier, h3], fun j hj => ?_⟩
    fin_cases j <;> simp [loveMtier] at hj ⊢ <;> linarith

lemma loveM_tier_val (m : ℚ) (i : Fin 4) (h : loveMtier i m) : loveM m = loveMval i := by
  fin_cases i <;> simp [loveMtier] at h <;> unfold loveM <;> split_ifs <;>
    first
      | rfl
      | (exfalso; rcases h with ⟨h1, h2⟩; linarith)
      | (exfalso; linarith [h])

/-- Tiers of the love `C` chain: `(0.8,∞)`, `(0.5,0.8]`, `(0.3,0.5]`,
`(-∞,0.3]`. -/
def loveCtier (i : Fin 4) (d : ℚ) : Prop :=
  if i = 0 then 0.8 < d
  else if i = 1 then 0.5 < d ∧ d ≤ 0.8
  else if i = 2 then 0.3 < d ∧ d ≤ 0.5
  else d ≤ 0.3

/-- Values of the love `C` tiers, in tier order. -/
def loveCval (i : Fin 4) : ℤ :=
  if i = 0 then 15 else if i = 1 then 10 else if i = 2 then 5 else 0

lemma loveCtier_exu (d : ℚ) : ∃! i : Fin 4, loveCtier i d := by
  rcases lt_or_le (0.8 : ℚ) d with h1 | h1
  · refine ⟨0, by simp [loveCtier, h1], fun j hj => ?_⟩
    fin_cases j <;> simp [loveCtier] at hj ⊢ <;> linarith
  rcases lt_or_le (0.5 : ℚ) d with h2 | h2
  · refine ⟨1, by simp [loveCtier]; exact ⟨h2, h1⟩, fun j hj => ?_⟩
    fin_cases j <;> simp [loveCtier] at hj ⊢ <;> linarith
  rcases lt_or_le (0.3 : ℚ) d with h3 | h3
  · refine ⟨2, by simp [loveCtier]; exact ⟨h3, h2⟩, fun j hj => ?_⟩
    fin_cases j <;> simp [loveCtier] at hj ⊢ <;> linarith
  · refine ⟨3, by simp [loveCtier, h3], fun j hj => ?_⟩
    fin_cases j <;> simp [loveCtier] at hj ⊢ <;> linarith

lemma loveC_tier_val (d : ℚ) (i : Fin 4) (h : loveCtier i d) : loveC d = loveCval i := by
  fin_cases i <;> simp [loveCtier] at h <;> unfold loveC <;> split_ifs <;>
    first
      | rfl
      | (exfalso; rcases h with ⟨h1, h2⟩; linarith)
      | (exfalso; linarith [h])

/-- Tiers of the friendship `R` chain: `(-∞,5)`, `[5,15)`, `[15,60)`, `[60,∞)`. -/
def friendRtier (i : Fin 4) (T : ℚ) : Prop :=
  if i = 0 then T < 5
  else if i = 1 then 5 ≤ T ∧ T < 15
  else if i = 2 then 15 ≤ T ∧ T < 60
  else 60 ≤ T

/-- Values of the friendship `R` tiers, in tier order. -/
def friendRval (i : Fin 4) : ℤ :=
  if i = 0 then 20 else if i = 1 then 10 else if i = 2 then 5 else 0

lemma friendRtier_exu (T : ℚ) : ∃! i : Fin 4, friendRtier i T := by
  rcases lt_or_le T 5 with h1 | h1
  · refine ⟨0, by simp [friendRtier, h1], fun j hj => ?_⟩
    fin_cases j <;> simp [friendRtier] at hj ⊢ <;> linarith
  rcases lt_or_le T 15 with h2 | h2
  · refine ⟨1, by simp [friendRtier]; exact ⟨h1, h2⟩, fun j hj => ?_⟩
    fin_cases j <;> simp [friendRtier] at hj ⊢ <;> linarith
  rcases lt_or_le T 60 with h3 | h3
  · refine ⟨2, by simp [friendRtier]; exact ⟨h2, h3⟩, fun j hj => ?_⟩
    fin_cases j <;> simp [friendRtier] at hj ⊢ <;> linarith
  · refine ⟨3, by simp [friendRtier, h3], fun j hj => ?_⟩
    fin_cases j <;> simp [friendRtier] at hj ⊢ <;> linarith

lemma friendR_tier_val (T : ℚ) (i : Fin 4) (h : friendRtier i T) :
    friendR T = friendRval i := by
  fin_cases i <;> simp [friendRtier] at h <;> unfold friendR <;> split_ifs <;>
    first
      | rfl
      | (exfalso; rcases h with ⟨h1, h2⟩; linarith)
      | (exfalso; linarith [h])

/-- Tiers of the friendship `E` chain: `(0.2,∞)`, `(0.1,0.2]`, `(0.05,0.1]`,
`(-∞,0.05]`. -/
def friendEtier (i : Fin 4) (e : ℚ) : Prop :=
  if i = 0 then 0.2 < e
  else if i = 1 then 0.1 < e ∧ e ≤ 0.2
  else if i = 2 then 0.05 < e ∧ e ≤ 0.1
  else e ≤ 0.05

/-- Values of the friendship `E` tiers, in tier order. -/
def friendEval (i : Fin 4) : ℤ :=
  if i = 0 then 20 else if i = 1 then 15 else if i = 2 then 10 else 0

lemma friendEtier_exu (e : ℚ) : ∃! i : Fin 4, friendEtier i e := by
  rcases lt_or_le (0.2 : ℚ) e with h1 | h1
  · refine ⟨0, by simp [friendEtier, h1], fun j hj => ?_⟩
    fin_cases j <;> simp [friendEtier] at hj ⊢ <;> linarith
  rcases lt_or_le (0.1 : ℚ) e with h2 | h2
  · refine ⟨1, by simp [friendEtier]; exact ⟨h2, h1⟩, fun j hj => ?_⟩
    fin_cases j <;> simp [friendEtier] at hj ⊢ <;> linarith
  rcases lt_or_le (0.05 : ℚ) e with h3 | h3
  · refine ⟨2, by simp [friendEtier]; exact ⟨h3, h2⟩, fun j hj => ?_⟩
    fin_cases j <;> simp [friendEtier] at hj ⊢ <;> linarith
  · refine ⟨3, by simp [friendEtier, h3], fun j hj => ?_⟩
    fin_cases j <;> simp [friendEtier] at hj ⊢ <;> linarith

lemma friendE_tier_val (e : ℚ) (i : Fin 4) (h : friendEtier i e) :
    friendE e = friendEval i := by
  fin_cases i <;> simp [friendEtier] at h <;> unfold friendE <;> split_ifs <;>
    first
      | rfl
      | (exfalso; rcases h with ⟨h1, h2⟩; linarith)
      | (exfalso; linarith [h])

/-- Tiers of the friendship `M` chain: `(0.40,∞)`, `(0.30,0.40]`, `(-∞,0.30]`. -/
def friendMtier (i : Fin 3) (m : ℚ) : Prop :=
  if i = 0 then 0.40 < m
  else if i = 1 then 0.30 < m ∧ m ≤ 0.40
  else m ≤ 0.30

/-- Values of the friendship `M` tiers, in tier order. -/
def friendMval (i : Fin 3) : ℤ :=
  if i = 0 then 20 else if i = 1 then 10 else -5

lemma friendMtier_exu (m : ℚ) : ∃! i : Fin 3, friendMtier i m := by
  rcases lt_or_le (0.40 : ℚ) m with h1 | h1
  · refine ⟨0, by simp [friendMtier, h1], fun j hj => ?_⟩
    fin_cases j <;> simp [friendMtier] at hj ⊢ <;> linarith
  rcases lt_or_le (0.30 : ℚ) m with h2 | h2
  · refine ⟨1, by simp [friendMtier]; exact ⟨h2, h1⟩, fun j hj => ?_⟩
    fin_cases j <;> simp [friendMtier] at hj ⊢ <;> linarith
  · refine ⟨2, by simp [friendMtier, h2], fun j hj => ?_⟩
    fin_cases j <;> simp [friendMtier] at hj ⊢ <;> linarith

lemma friendM_tier_val (m : ℚ) (i : Fin 3) (h : friendMtier i m) :
    friendM m = friendMval i := by
  fin_cases i <;> simp [friendMtier] at h <;> unfold friendM <;> split_ifs <;>
    first
      | rfl
      | (exfalso; rcases h with ⟨h1, h2⟩; linarith)
      | (exfalso; linarith [h])

/-- Tiers of the friendship `C` chain: `(0.6,∞)`, `(0.3,0.6]`, `(-∞,0.3]`. -/
def friendCtier (i : Fin 3) (d : ℚ) : Prop :=
  if i = 0 then 0.6 < d
  else if i = 1 then 0.3 < d ∧ d ≤ 0.6
  else d ≤ 0.3

/-- Values of the friendship `C` tiers, in tier order. -/
def friendCval (i : Fin 3) : ℤ :=
  if i = 0 then 20 else if i = 1 then 10 else 0

lemma friendCtier_exu (d : ℚ) : ∃! i : Fin 3, friendCtier i d := by
  rcases lt_or_le (0.6 : ℚ) d with h1 | h1
  · refine ⟨0, by simp [friendCtier, h1], fun j hj => ?_⟩
    fin_cases j <;> simp [friendCtier] at hj ⊢ <;> linarith
  rcases lt_or_le (0.3 : ℚ) d with h2 | h2
  · refine ⟨1, by simp [friendCtier]; exact ⟨h2, h1⟩, fun j hj => ?_⟩
    fin_cases j <;> simp [friendCtier] at hj ⊢ <;> linarith
  · refine ⟨2, by simp [friendCtier, h2], fun j hj => ?_⟩
    fin_cases j <;> simp [friendCtier] at hj ⊢ <;> linarith

lemma friendC_tier_val (d : ℚ) (i : Fin 3) (h : friendCtier i d) :
    friendC d = friendCval i := by
  fin_cases i <;> simp [friendCtier] at h <;> unfold friendC <;> split_ifs <;>
    first
      | rfl
      | (exfalso; rcases h with ⟨h1, h2⟩; linarith)
      | (exfalso; linarith [h])

/-- C1: `calculate_lovescore` and `calculate_friendship_score` are total
deterministic functions (they are Lean functions on ℚ⁴, so totality and
determinism are by construction); for every input, each of the eight
sub-scores is assigned by exactly one tier — the tiers have no gaps and no
overlaps at boundary values — and the `if`-chain value agrees with the unique
tier's value.  At the exact threshold `T = 2` the love response-speed
sub-score lies in the `T < 5` tier (value 15), not the `T < 2` tier. -/
theorem scoring_total_exactly_one_tier (T e m d : ℚ) :
    ((∃! i : Fin 5, loveRtier i T) ∧ ∀ i, loveRtier i T → loveR T = loveRval i) ∧
    ((∃! i : Fin 5, loveEtier i e) ∧ ∀ i, loveEtier i e → loveE e = loveEval i) ∧
    ((∃! i : Fin 4, loveMtier i m) ∧ ∀ i, loveMtier i m → loveM m = loveMval i) ∧
    ((∃! i : Fin 4, loveCtier i d) ∧ ∀ i, loveCtier i d → loveC d = loveCval i) ∧
    ((∃! i : Fin 4, friendRtier i T) ∧ ∀ i, friendRtier i T → friendR T = friendRval i) ∧
    ((∃! i : Fin 4, friendEtier i e) ∧ ∀ i, friendEtier i e → friendE e = friendEval i) ∧
    ((∃! i : Fin 3, friendMtier i m) ∧ ∀ i, friendMtier i m → friendM m = friendMval i) ∧
    ((∃! i : Fin 3, friendCtier i d) ∧ ∀ i, friendCtier i d → friendC d = friendCval i) ∧
    (loveRtier 1 2 ∧ (calculate_lovescore 2 e m d).2.1 = 15) := by
  refine ⟨⟨loveRtier_exu T, fun i => loveR_tier_val T i⟩,
    ⟨loveEtier_exu e, fun i => loveE_tier_val e i⟩,
    ⟨loveMtier_exu m, fun i => loveM_tier_val m i⟩,
    ⟨loveCtier_exu d, fun i => loveC_tier_val d i⟩,
    ⟨friendRtier_exu T, fun i => friendR_tier_val T i⟩,
    ⟨friendEtier_exu e, fun i => friendE_tier_val e i⟩,
    ⟨friendMtier_exu m, fun i => friendM_tier_val m i⟩,
    ⟨friendCtier_exu d, fun i => friendC_tier_val d i⟩,
    ?_, ?_⟩
  · simp [loveRtier]; norm_num
  · norm_num [calculate_lovescore, loveR]

/-- Witness for the tier/value implications of `scoring_total_exactly_one_tier`
at the concrete input `(T,e,m,d) = (3,0,0,0)`: tier 1 of the love `R` chain
applies at `T = 3` and forces the sub-score 15. -/
theorem scoring_total_exactly_one_tier_witness : loveR 3 = 15 :=
  (scoring_total_exactly_one_tier 3 0 0 0).1.2 1 (by norm_num [loveRtier])

/-- C9: `calculate_lovescore` returns `50` plus its four sub-scores, with
`E ≥ 0`, `C ≥ 0`, `M ≥ -10` (and `M = -10` is attained, at `m = 0`), and
`R = -15` whenever `T ≥ 30`; `calculate_friendship_score` returns `40` plus
its four sub-scores, its reply-time tiers switch exactly at 5/15/60 minutes,
and every friendship sub-score is at least `-5`. -/
theorem scoring_base_and_bounds (T e m d : ℚ) :
    (calculate_lovescore T e m d).1 = 50 + loveR T + loveE e + loveM m + loveC d ∧
    0 ≤ loveE e ∧ 0 ≤ loveC d ∧ -10 ≤ loveM m ∧ loveM 0 = -10 ∧
    (30 ≤ T → loveR T = -15) ∧
    calculate_friendship_score T e m d = 40 + friendR T + friendE e + friendM m + friendC d ∧
    (T < 5 → friendR T = 20) ∧ (5 ≤ T → T < 15 → friendR T = 10) ∧
    (15 ≤ T → T < 60 → friendR T = 5) ∧ (60 ≤ T → friendR T = 0) ∧
    -5 ≤ friendR T ∧ -5 ≤ friendE e ∧ -5 ≤ friendM m ∧ -5 ≤ friendC d := by
  refine ⟨rfl, ?_, ?_, ?_, by norm_num [loveM], ?_, rfl, ?_, ?_, ?_, ?_, ?_, ?_, ?_, ?_⟩
  · unfold loveE; split_ifs <;> norm_num
  · unfold loveC; split_ifs <;> norm_num
  · unfold loveM; split_ifs <;> norm_num
  · intro h; unfold loveR; split_ifs <;> first | rfl | linarith
  · intro h; unfold friendR; split_ifs <;> first | rfl | linarith
  · intro h1 h2; unfold friendR; split_ifs <;> first | rfl | linarith
  · intro h1 h2; unfold friendR; split_ifs <;> first | rfl | linarith
  · intro h; unfold friendR; split_ifs <;> first | rfl | linarith
  · unfold friendR; split_ifs <;> norm_num
  · unfold friendE; split_ifs <;> norm_num
  · unfold friendM; split_ifs <;> norm_num
  · unfold friendC; split_ifs <;> norm_num

/-- Witness for the conditional parts of `scoring_base_and_bounds` at
`T = 30` (the slow-reply boundary): the love `R` sub-score is `-15` there. -/
theorem scoring_base_and_bounds_witness : loveR 30 = -15 :=
  ((scoring_base_and_bounds 30 0 0 0).2.2.2.2.2.1) (by norm_num)

/-! ### Transcript parser (`parse_chat`, src/app.py lines 65-85)

The line pattern is
`(\d{1,2}/\d{1,2}/\d{2,4}, \d{1,2}:\d{2}\s?[apAPm\s]*) - ([^:]+): (.*)`,
matched at the start of each line.  Its backtracking behaviour is modelled
exactly: every counted quantifier here is followed by a character outside its
class, so each digit field consumes its maximal digit run (failing when the
run length is outside the counted range), and the single genuine backtracking
point is the greedy `[apAPm\s]*` run giving characters back until the literal
`" - "` and the `([^:]+): ` tail match.  Character classes are modelled on
their ASCII range (the transcripts at issue are ASCII in the matched region).
-/

/-- Python `\s` whitespace class, ASCII range. -/
def pyIsSpace (c : Char) : Bool :=
  c = ' ' || c = '\t' || c = '\n' || c = '\x0b' || c = '\x0c' || c = '\r'

/-- The character class `[apAPm\s]` of the line pattern. -/
def isAmpmChar (c : Char) : Bool :=
  c = 'a' || c = 'p' || c = 'A' || c = 'P' || c = 'm' || pyIsSpace c

/-- Consume one expected literal character. -/
def expectChar (c : Char) (l : List Char) : Option (List Char) :=
  match l with
  | x :: r => if x = c then some r else none
  | [] => none

/-- One attempt of the regex tail `" - ([^:]+): (.*)"` after `k` characters of
the `[apAPm\s]*` run have been consumed. -/
def sepAttempt (r : List Char) (k : Nat) : Option (Nat × List Char × List Char) :=
  match r.drop k with
  | ' ' :: '-' :: ' ' :: rest =>
    let author := rest.takeWhile (fun c => c ≠ ':')
    match rest.dropWhile (fun c => c ≠ ':') with
    | ':' :: ' ' :: msg => if author = [] then none else some (k, author, msg)
    | _ => none
  | _ => none

/-- Greedy matching of `[apAPm\s]*` followed by the tail: start at the full
run length and give back one character at a time, as the regex engine does. -/
def matchTail (r : List Char) : Nat → Option (Nat × List Char × List Char)
  | 0 => sepAttempt r 0
  | k2 + 1 =>
    match sepAttempt r (k2 + 1) with
    | some res => some res
    | none => matchTail r k2

/-- Match one line against the message pattern, returning the three captured
groups `(date-time text, raw author text, message text)`. -/
def matchLine (l : List Char) : Option (List Char × List Char × List Char) := do
  let (d1, r1) := l.span Char.isDigit
  guard (1 ≤ d1.length ∧ d1.length ≤ 2)
  let r2 ← expectChar '/' r1
  let (d2, r3) := r2.span Char.isDigit
  guard (1 ≤ d2.length ∧ d2.length ≤ 2)
  let r4 ← expectChar '/' r3
  let (d3, r5) := r4.span Char.isDigit
  guard (2 ≤ d3.length ∧ d3.length ≤ 4)
  let r6 ← expectChar ',' r5
  let r7 ← expectChar ' ' r6
  let (d4, r8) := r7.span Char.isDigit
  guard (1 ≤ d4.length ∧ d4.length ≤ 2)
  let r9 ← expectChar ':' r8
  guard (2 ≤ r9.length ∧ (r9.take 2).all Char.isDigit)
  let r10 := r9.drop 2
  let clsLen := (r10.takeWhile isAmpmChar).length
  let (k, author, msg) ← matchTail r10 clsLen
  some (l.take (l.length - r10.length + k), author, msg)

/-! ### `datetime.strptime` for the two formats tried by the parser

`_strptime` turns `%d`/`%m`/`%I` into `(3[01]|[12]\d|0[1-9]|[1-9])`-style
alternations, `%M` into `([0-5]\d|\d)`, `%Y` into `\d\d\d\d`, `%y` into
`\d\d`, a space into `\s+`, and `%p` into a case-insensitive `(am|pm)`; the
whole input must be consumed, and the resulting numbers must form a valid
`datetime` (day within the month, year at least 1).  As in the line pattern,
each numeric field is followed by a non-digit, so the alternations reduce to
conditions on the maximal digit run. -/

/-- Numeric value of a digit run. -/
def digitsVal (l : List Char) : Nat :=
  l.foldl (fun a c => 10 * a + (c.toNat - 48)) 0

/-- A 1-2 digit field whose two-digit form is capped (`%d`: 31, `%m`/`%I`: 12);
the one-digit form is `[1-9]` and `00` never matches. -/
def parseNumField (hi : Nat) (run : List Char) : Option Nat :=
  if run.length = 1 then
    if 1 ≤ digitsVal run then some (digitsVal run) else none
  else if run.length = 2 then
    if 1 ≤ digitsVal run ∧ digitsVal run ≤ hi then some (digitsVal run) else none
  else none

/-- The `%M` field: `([0-5]\d|\d)`. -/
def minuteField (run : List Char) : Option Nat :=
  if run.length = 1 then some (digitsVal run)
  else if run.length = 2 then
    if digitsVal run ≤ 59 then some (digitsVal run) else none
  else none

/-- The trailing `%p` field: exactly `am`/`pm` (case-insensitive) and then the
end of the string; `true` means pm. -/
def ampmField (l : List Char) : Option Bool :=
  match l with
  | [c1, c2] =>
    if c1.toLower = 'p' && c2.toLower = 'm' then some true
    else if c1.toLower = 'a' && c2.toLower = 'm' then some false
    else none
  | _ => none

def isLeapYear (y : Nat) : Bool :=
  y % 4 = 0 && (y % 100 ≠ 0 || y % 400 = 0)

def daysInMonth (y m : Nat) : Nat :=
  if m = 2 then (if isLeapYear y then 29 else 28)
  else if m = 4 ∨ m = 6 ∨ m = 9 ∨ m = 11 then 30 else 31

def daysBeforeMonth (y m : Nat) : Nat :=
  ((List.range (m - 1)).map (fun i => daysInMonth y (i + 1))).sum

/-- `datetime.toordinal`: day number of `(y,m,d)` counting 0001-01-01 as 1. -/
def toOrdinal (y m d : Nat) : Nat :=
  365 * (y - 1) + (y - 1) / 4 - (y - 1) / 100 + (y - 1) / 400 + daysBeforeMonth y m + d

/-- `datetime.strptime` for `%d/%m/%Y, %I:%M %p` (`dayFirst = true`) and
`%m/%d/%y, %I:%M %p` (`dayFirst = false`), returning minutes since
0001-01-01 00:00. -/
def strptimeFmt (dayFirst : Bool) (s : List Char) : Option Nat := do
  let (run1, s1) := s.span Char.isDigit
  let v1 ← parseNumField (if dayFirst then 31 else 12) run1
  let s2 ← expectChar '/' s1
  let (run2, s3) := s2.span Char.isDigit
  let v2 ← parseNumField (if dayFirst then 12 else 31) run2
  let s4 ← expectChar '/' s3
  let (run3, s5) := s4.span Char.isDigit
  let year ←
    if dayFirst then
      if run3.length = 4 then some (digitsVal run3) else none
    else
      if run3.length = 2 then
        some (if digitsVal run3 < 69 then 2000 + digitsVal run3 else 1900 + digitsVal run3)
      else none
  let s6 ← expectChar ',' s5
  let (ws1, s7) := s6.span pyIsSpace
  guard (0 < ws1.length)
  let (run4, s8) := s7.span Char.isDigit
  let hour12 ← parseNumField 12 run4
  let s9 ← expectChar ':' s8
  let (run5, s10) := s9.span Char.isDigit
  let minute ← minuteField run5
  let (ws2, s11) := s10.span pyIsSpace
  guard (0 < ws2.length)
  let pm ← ampmField s11
  let day := if dayFirst then v1 else v2
  let month := if dayFirst then v2 else v1
  guard (1 ≤ year)
  guard (day ≤ daysInMonth year month)
  let hour24 := if pm then (if hour12 = 12 then 12 else hour12 + 12)
                else (if hour12 = 12 then 0 else hour12)
  some ((toOrdinal year month day - 1) * 1440 + hour24 * 60 + minute)

/-- A parsed transcript record: `[timestamp, user, message]` with the
timestamp in minutes since 0001-01-01 00:00. -/
structure Message where
  timestamp : Nat
  user : String
  message : String
deriving DecidableEq, Repr

/-- Python `str.strip()` on the ASCII whitespace range. -/
def pyStrip (l : List Char) : List Char :=
  ((l.dropWhile pyIsSpace).reverse.dropWhile pyIsSpace).reverse

/-- The per-line body of the `parse_chat` loop: regex match, then
`datetime.strptime` day-first, then month-first; an unmatched line or a line
failing both timestamp formats yields `none` (the `continue`). -/
def parseLine (line : String) : Option Message :=
  match matchLine line.data with
  | none => none
  | some (dateStr, author, msg) =>
    match strptimeFmt true dateStr with
    | some ts => some ⟨ts, String.mk (pyStrip author), String.mk msg⟩
    | none =>
      match strptimeFmt false dateStr with
      | some ts => some ⟨ts, String.mk (pyStrip author), String.mk msg⟩
      | none => none

/-- `parse_chat` (src/app.py lines 65-85): collect the parsed lines; if none
parsed, report failure (`st.error` + `return None`); otherwise drop the
`<Media omitted>` records and return the rest. -/
def parse_chat (lines : List String) : Option (List Message) :=
  let data := lines.filterMap parseLine
  if data = [] then none
  else some (data.filter (fun msg => msg.message ≠ "<Media omitted>"))

/-! ### Feature extraction (`get_base_metrics`, src/app.py lines 87-102) -/

/-- `df['timestamp'].max()` (0 for an empty frame, on which the Python code
is never run: parsing guarantees at least one record before filtering). -/
def maxTimestamp (df : List Message) : Nat :=
  (df.map Message.timestamp).foldl max 0

/-- `df['timestamp'].min()`. -/
def minTimestamp (df : List Message) : Nat :=
  match df.map Message.timestamp with
  | [] => 0
  | t :: ts => ts.foldl min t

/-- The `reply_times` loop (lines 89-93): adjacent pairs where the previous
message is by `other` and the current one by `user`, keeping time differences
under 24 hours (1440 minutes).  The difference is taken in ℤ cast to ℚ, as
Python `total_seconds()` is signed. -/
def replyTimesOf (df : List Message) (user other : String) : List ℚ :=
  (df.zip df.tail).filterMap fun p =>
    if p.2.user = user ∧ p.1.user = other then
      let diff : ℚ := (p.2.timestamp : ℚ) - (p.1.timestamp : ℚ)
      if diff < 60 * 24 then some diff else none
    else none

/-- Line 94: mean reply time, `999` when no qualifying pair exists. -/
def Tmetric (df : List Message) (user other : String) : ℚ :=
  let rt := replyTimesOf df user other
  if rt = [] then 999 else rt.sum / rt.length

/-- Line 99: `df['timestamp'].dt.date.nunique()` — number of distinct
calendar days (a calendar day is the timestamp divided by 1440). -/
def chat_days (df : List Message) : Nat :=
  ((df.map (fun msg => msg.timestamp / 1440)).dedup).length

/-- Line 100: `(df['timestamp'].max() - df['timestamp'].min()).days + 1` —
the floored timestamp difference in whole days, plus one. -/
def total_days (df : List Message) : Nat :=
  (maxTimestamp df - minTimestamp df) / 1440 + 1

/-- Line 101: `d = chat_days / total_days if total_days > 0 else 0`. -/
def dMetric (df : List Message) : ℚ :=
  if total_days df > 0 then (chat_days df : ℚ) / total_days df else 0

/-- `get_base_metrics` (lines 87-102), returning `(T, e, m, d, reply_times)`.
`emojiData` abstracts membership in the external `emoji.EMOJI_DATA` table. -/
def get_base_metrics (emojiData : Char → Bool) (df : List Message)
    (user other : String) : ℚ × ℚ × ℚ × ℚ × List ℚ :=
  let user_messages := (df.filter (fun msg => msg.user = user)).map Message.message
  let emoji_count := (user_messages.map (fun s => (s.data.filter emojiData).length)).sum
  let e : ℚ := if user_messages = [] then 0 else (emoji_count : ℚ) / user_messages.length
  let m : ℚ := if df.length > 0 then
      (((df.filter (fun msg => msg.user = user)).length : ℚ) / df.length) else 0
  (Tmetric df user other, e, m, dMetric df, replyTimesOf df user other)

/-- C6: `parse_chat` reports the parse failure (`None` after `st.error`, a
hard stop with no partial results) exactly when no input line matches the
line grammar together with one of the two timestamp formats; otherwise it
returns a sequence of records. -/
theorem parse_chat_none_iff_no_line_matches (lines : List String) :
    parse_chat lines = none ↔ ∀ l ∈ lines, parseLine l = none := by
  unfold parse_chat
  by_cases h : lines.filterMap parseLine = []
  · rw [if_pos h]
    exact iff_of_true rfl (List.filterMap_eq_nil_iff.mp h)
  · rw [if_neg h]
    exact iff_of_false (by simp) (fun hall => h (List.filterMap_eq_nil_iff.mpr hall))

/-- C7: a successful parse returns a subsequence of the per-line parses in
input order — so the relative order of matching lines is preserved — and
every returned record is the parse of some input line (unmatched lines never
appear and are never merged into a previous record). -/
theorem parse_chat_preserves_order (lines : List String) (msgs : List Message)
    (h : parse_chat lines = some msgs) :
    msgs.Sublist (lines.filterMap parseLine) ∧
    ∀ msg ∈ msgs, ∃ l ∈ lines, parseLine l = some msg := by
  simp only [parse_chat] at h
  split_ifs at h with he
  obtain rfl := Option.some.inj h
  refine ⟨List.filter_sublist _, fun msg hm => ?_⟩
  have hm2 : msg ∈ lines.filterMap parseLine := List.mem_of_mem_filter hm
  obtain ⟨l, hl, hpl⟩ := List.mem_filterMap.mp hm2
  exact ⟨l, hl, hpl⟩

/-- Witness for `parse_chat_preserves_order` on a concrete two-line
transcript whose second line is noise. -/
theorem parse_chat_preserves_order_witness :
    ([⟨1063469400, "Alice", "hi"⟩] : List Message).Sublist
      ((["1/1/23, 10:00 am - Alice: hi", "noise line"].filterMap parseLine)) :=
  (parse_chat_preserves_order ["1/1/23, 10:00 am - Alice: hi", "noise line"]
    [⟨1063469400, "Alice", "hi"⟩] (by decide)).1

/-- C10: the empty-result check happens before media filtering — a transcript
whose only matching line is a `<Media omitted>` record parses successfully
(no failure report) and returns the empty sequence. -/
theorem parse_chat_media_only_is_empty_success :
    (parseLine "1/1/23, 10:00 am - Alice: <Media omitted>").isSome = true ∧
    (parseLine "1/1/23, 10:00 am - Alice: <Media omitted>").map Message.message
      = some "<Media omitted>" ∧
    parse_chat ["1/1/23, 10:00 am - Alice: <Media omitted>"] = some [] := by
  refine ⟨by decide, by decide, by decide⟩

/-- C4: with no qualifying reply pair the extractor returns the sentinel
`T = 999`, and at `T = 999` both formulas give their lowest response-speed
tier: `R = -15` for the love score and `R = 0` for the friendship score. -/
theorem no_replies_sentinel_lowest_tier (emojiData : Char → Bool)
    (df : List Message) (user other : String)
    (h : replyTimesOf df user other = []) :
    (get_base_metrics emojiData df user other).1 = 999 ∧
    (calculate_lovescore 999 0 0 0).2.1 = -15 ∧ loveR 999 = -15 ∧
    friendR 999 = 0 := by
  refine ⟨?_, by norm_num [calculate_lovescore, loveR], by norm_num [loveR],
    by norm_num [friendR]⟩
  simp [get_base_metrics, Tmetric, h]

/-- Witness for `no_replies_sentinel_lowest_tier`: a one-message transcript
has no reply pairs at all. -/
theorem no_replies_sentinel_lowest_tier_witness :
    (get_base_metrics (fun _ => false) [⟨0, "A", "x"⟩] "A" "B").1 = 999 :=
  (no_replies_sentinel_lowest_tier (fun _ => false) [⟨0, "A", "x"⟩] "A" "B" rfl).1

/-! ### Day coverage (claim C3) -/

/-- The parse of a transcript whose two messages sit at 23:00 and at 01:00
the next calendar day (timestamps checked in `day_coverage_claim_false`). -/
def dfOverOne : List Message :=
  [⟨1063470180, "A", "x"⟩, ⟨1063470300, "B", "y"⟩]

lemma init_le_foldl_max (l : List Nat) (init : Nat) : init ≤ l.foldl max init := by
  induction l generalizing init with
  | nil => exact le_refl _
  | cons b t ih => exact le_trans (le_max_left _ _) (ih (max init b))

lemma le_foldl_max (l : List Nat) (init a : Nat) (h : a ∈ l) : a ≤ l.foldl max init := by
  induction l generalizing init with
  | nil => cases h
  | cons b t ih =>
    rcases List.mem_cons.mp h with rfl | h2
    · exact le_trans (le_max_right init a) (init_le_foldl_max t _)
    · exact ih _ h2

lemma foldl_min_le_init (l : List Nat) (init : Nat) : l.foldl min init ≤ init := by
  induction l generalizing init with
  | nil => exact le_refl _
  | cons b t ih => exact le_trans (ih (min init b)) (min_le_left _ _)

lemma foldl_min_le (l : List Nat) (init a : Nat) (h : a ∈ l) : l.foldl min init ≤ a := by
  induction l generalizing init with
  | nil => cases h
  | cons b t ih =>
    rcases List.mem_cons.mp h with rfl | h2
    · exact le_trans (foldl_min_le_init t _) (min_le_right init a)
    · exact ih _ h2

lemma minTimestamp_le (df : List Message) (msg : Message) (h : msg ∈ df) :
    minTimestamp df ≤ msg.timestamp := by
  unfold minTimestamp
  have hmem : msg.timestamp ∈ df.map Message.timestamp := List.mem_map_of_mem _ h
  cases hdf : df.map Message.timestamp with
  | nil => rw [hdf] at hmem; cases hmem
  | cons t ts =>
    rw [hdf] at hmem
    rcases List.mem_cons.mp hmem with heq | h2
    · rw [heq]; exact foldl_min_le_init ts _
    · exact foldl_min_le ts t _ h2

lemma le_maxTimestamp (df : List Message) (msg : Message) (h : msg ∈ df) :
    msg.timestamp ≤ maxTimestamp df :=
  le_foldl_max _ 0 _ (List.mem_map_of_mem _ h)

lemma chat_days_le_day_range (df : List Message) :
    chat_days df ≤ maxTimestamp df / 1440 - minTimestamp df / 1440 + 1 := by
  unfold chat_days
  set L := df.map (fun msg => msg.timestamp / 1440) with hL
  have hnd : L.dedup.Nodup := List.nodup_dedup L
  have hsub : L.dedup.toFinset ⊆
      Finset.Icc (minTimestamp df / 1440) (maxTimestamp df / 1440) := by
    intro x hx
    have hx2 : x ∈ L := List.mem_dedup.mp (List.mem_toFinset.mp hx)
    rw [hL] at hx2
    obtain ⟨msg, hmsg, rfl⟩ := List.mem_map.mp hx2
    exact Finset.mem_Icc.mpr
      ⟨Nat.div_le_div_right (minTimestamp_le df msg hmsg),
       Nat.div_le_div_right (le_maxTimestamp df msg hmsg)⟩
  calc L.dedup.length = L.dedup.toFinset.card := by
        rw [List.toFinset_card_of_nodup hnd]
    _ ≤ (Finset.Icc (minTimestamp df / 1440) (maxTimestamp df / 1440)).card :=
        Finset.card_le_card hsub
    _ = maxTimestamp df / 1440 + 1 - minTimestamp df / 1440 := Nat.card_Icc _ _
    _ ≤ maxTimestamp df / 1440 - minTimestamp df / 1440 + 1 := by omega

/-- C3 counterexample: on the parsed two-line transcript `dfOverOne` the code
computes `d = 2`, exceeding 1, whereas the claim's calendar-day-span formula
(`last_day - first_day + 1` = 2 days) would give `d = 1`. -/
theorem day_coverage_claim_false :
    parse_chat ["1/1/23, 11:00 pm - A: x", "1/2/23, 1:00 am - B: y"] = some dfOverOne ∧
    dMetric dfOverOne = 2 ∧ ¬dMetric dfOverOne ≤ 1 ∧
    chat_days dfOverOne = 2 ∧
    maxTimestamp dfOverOne / 1440 - minTimestamp dfOverOne / 1440 + 1 = 2 ∧
    (chat_days dfOverOne : ℚ) /
      ((maxTimestamp dfOverOne / 1440 - minTimestamp dfOverOne / 1440 + 1 : Nat) : ℚ)
      = 1 := by
  have h1 : chat_days dfOverOne = 2 := by decide
  have h2 : total_days dfOverOne = 1 := by decide
  have h3 : maxTimestamp dfOverOne / 1440 - minTimestamp dfOverOne / 1440 + 1 = 2 := by
    decide
  have h4 : dMetric dfOverOne = 2 := by
    unfold dMetric
    rw [h1, h2]
    norm_num
  exact ⟨by decide, h4, by rw [h4]; norm_num, h1, h3, by rw [h1, h3]; norm_num⟩

/-- C3 amended: for a non-empty record sequence, `d` is the number of
distinct transcript-wide calendar days divided by the floored timestamp-span
in days plus one (`(max - min).days + 1`, not the calendar-day span); that
denominator is positive, and since it can undercount the calendar-day span
by at most one, `d` never exceeds 2 (though it can exceed 1). -/
theorem day_coverage_formula_and_bound (df : List Message) (h : df ≠ []) :
    dMetric df = (chat_days df : ℚ) / total_days df ∧
    1 ≤ total_days df ∧
    dMetric df ≤ 2 := by
  have htd : 0 < total_days df := by unfold total_days; omega
  obtain ⟨msg0, rest, rfl⟩ := List.exists_cons_of_ne_nil h
  have hmem : msg0 ∈ msg0 :: rest := List.mem_cons_self _ _
  have hminmax : minTimestamp (msg0 :: rest) ≤ maxTimestamp (msg0 :: rest) :=
    le_trans (minTimestamp_le _ msg0 hmem) (le_maxTimestamp _ msg0 hmem)
  refine ⟨by unfold dMetric; rw [if_pos htd], htd, ?_⟩
  have hfinal : chat_days (msg0 :: rest) ≤ 2 * total_days (msg0 :: rest) := by
    have h4 := chat_days_le_day_range (msg0 :: rest)
    unfold total_days
    omega
  unfold dMetric
  rw [if_pos htd]
  rw [div_le_iff₀ (by exact_mod_cast htd)]
  exact_mod_cast hfinal

/-- Witness for `day_coverage_formula_and_bound` on a one-message transcript. -/
theorem day_coverage_formula_and_bound_witness :
    dMetric [(⟨0, "A", "x"⟩ : Message)] =
      (chat_days [(⟨0, "A", "x"⟩ : Message)] : ℚ) /
        total_days [(⟨0, "A", "x"⟩ : Message)] ∧
    1 ≤ total_days [(⟨0, "A", "x"⟩ : Message)] ∧
    dMetric [(⟨0, "A", "x"⟩ : Message)] ≤ 2 :=
  day_coverage_formula_and_bound [⟨0, "A", "x"⟩] (by decide)

/-! ### Conversation analyzer (`analyze_chat_dynamics` lines 104-115 and
`analyze_starters` lines 125-133) -/

/-- `message.str.count(r'\?')` for one message: the number of `?`
characters. -/
def countQuestionMarks (s : String) : Nat :=
  s.data.countP (fun c => c = '?')

/-- Python regex word character (`\w`), ASCII range. -/
def isWordChar (c : Char) : Bool :=
  c.isAlphanum || c = '_'

/-- The fixed low-effort-reply lexicon of src/app.py line 110 (each regex
`\b<word>\b`, all lowercase). -/
def lowEffortWords : List (List Char) :=
  [['o', 'k'], ['k'], ['h', 'm', 'm'], ['l', 'o', 'l'],
   ['h', 'a', 'h', 'a'], ['y', 'e', 'a', 'h']]

/-- Does `w` occur at the head of `t` with a word boundary after it?  (The
boundary before is checked by the caller.) -/
def wordAt (w t : List Char) : Bool :=
  (t.take w.length = w) &&
    (match t.drop w.length with
     | [] => true
     | c :: _ => !isWordChar c)

/-- Scan for a whole-word occurrence of `w`; `prev` records whether the
character before the current position is a word character. -/
def hasWordFrom (w : List Char) : Bool → List Char → Bool
  | prev, [] => !prev && wordAt w []
  | prev, c :: rest => (!prev && wordAt w (c :: rest)) || hasWordFrom w (isWordChar c) rest

/-- `str.contains('|'.join(low_effort_replies), case=False)` for one message:
some lexicon word occurs between word boundaries, case-insensitively (the
lexicon is lowercase ASCII, so `re.IGNORECASE` amounts to lowercasing the
message). -/
def containsLowEffort (s : String) : Bool :=
  lowEffortWords.any (fun w => hasWordFrom w false (s.data.map Char.toLower))

/-- `analyze_chat_dynamics` (lines 104-115), returning
`((q1, q2), (le1, le2), (avg1, avg2))`.  The mean length of an empty message
set is modelled as 0 (pandas produces NaN there; no claim touches it). -/
def analyze_chat_dynamics (df : List Message) (user1 user2 : String) :
    (Nat × Nat) × (Nat × Nat) × (ℚ × ℚ) :=
  let u1 := (df.filter (fun msg => msg.user = user1)).map Message.message
  let u2 := (df.filter (fun msg => msg.user = user2)).map Message.message
  let q1 := (u1.map countQuestionMarks).sum
  let q2 := (u2.map countQuestionMarks).sum
  let le1 := u1.countP containsLowEffort
  let le2 := u2.countP containsLowEffort
  let avg1 : ℚ := if u1 = [] then 0 else ((u1.map String.length).sum : ℚ) / u1.length
  let avg2 : ℚ := if u2 = [] then 0 else ((u2.map String.length).sum : ℚ) / u2.length
  ((q1, q2), (le1, le2), (avg1, avg2))

/-- The starters list built by `analyze_starters` (lines 125-133): the first
message's author, then the author of every message whose gap since the
previous message strictly exceeds six hours (360 minutes; the Nat
subtraction is 0 on out-of-order pairs, matching the sign of the Python
timedelta comparison). -/
def startersList (df : List Message) : List String :=
  match df with
  | [] => []
  | msg0 :: _ =>
    msg0.user ::
      ((df.zip df.tail).filter fun p =>
        decide (360 < p.2.timestamp - p.1.timestamp)).map fun p => p.2.user

/-- `analyze_starters` (lines 125-133): the `value_counts()` of the starters
list, modelled as the author-to-count function. -/
def analyze_starters (df : List Message) : String → Nat :=
  fun a => (startersList df).count a

/-- The parse of a one-line transcript whose message is `??`. -/
def dfQuestions : List Message :=
  [⟨1063469400, "A", "??"⟩]

/-- C2 counterexample: on the parsed transcript `dfQuestions`, user `A` has
one message but `analyze_chat_dynamics` reports a question count of 2 — the
code sums `?` occurrences, so the count exceeds the user's message count and
differs from the number of messages containing at least one `?` (which
is 1). -/
theorem question_count_exceeds_message_count :
    parse_chat ["1/1/23, 10:00 am - A: ??"] = some dfQuestions ∧
    (analyze_chat_dynamics dfQuestions "A" "B").1.1 = 2 ∧
    (dfQuestions.filter (fun msg => msg.user = "A")).length = 1 ∧
    ¬((analyze_chat_dynamics dfQuestions "A" "B").1.1 ≤
        (dfQuestions.filter (fun msg => msg.user = "A")).length) ∧
    ((dfQuestions.filter (fun msg => msg.user = "A")).map Message.message).countP
        (fun s => s.data.any (fun c => c = '?')) = 1 := by
  exact ⟨by decide, by decide, by decide, by decide, by decide⟩

lemma question_msgs_le_marks (l : List String) :
    l.countP (fun s => s.data.any (fun c => c = '?')) ≤
      (l.map countQuestionMarks).sum := by
  induction l with
  | nil => simp
  | cons s t ih =>
    rw [List.countP_cons, List.map_cons, List.sum_cons]
    split_ifs with hs
    · have h1 : 0 < countQuestionMarks s := by
        obtain ⟨c, hc, hcq⟩ := List.any_eq_true.mp hs
        exact List.countP_pos_iff.mpr ⟨c, hc, hcq⟩
      omega
    · omega

/-- C2 amended: each low-effort-reply count is at most that user's message
count, while each question count is the total number of `?` occurrences in
that user's messages — at least the number of that user's messages containing
a `?`, but (as `question_count_exceeds_message_count` shows) possibly more
than the user's message count. -/
theorem engagement_counts_amended (df : List Message) (user1 user2 : String) :
    (analyze_chat_dynamics df user1 user2).2.1.1 ≤
      (df.filter (fun msg => msg.user = user1)).length ∧
    (analyze_chat_dynamics df user1 user2).2.1.2 ≤
      (df.filter (fun msg => msg.user = user2)).length ∧
    (analyze_chat_dynamics df user1 user2).1.1 =
      (((df.filter (fun msg => msg.user = user1)).map Message.message).map
        countQuestionMarks).sum ∧
    ((df.filter (fun msg => msg.user = user1)).map Message.message).countP
        (fun s => s.data.any (fun c => c = '?')) ≤
      (analyze_chat_dynamics df user1 user2).1.1 := by
  refine ⟨?_, ?_, rfl, ?_⟩
  · calc (analyze_chat_dynamics df user1 user2).2.1.1
        = ((df.filter (fun msg => msg.user = user1)).map Message.message).countP
            containsLowEffort := rfl
      _ ≤ ((df.filter (fun msg => msg.user = user1)).map Message.message).length :=
          List.countP_le_length _
      _ = (df.filter (fun msg => msg.user = user1)).length := List.length_map _ _
  · calc (analyze_chat_dynamics df user1 user2).2.1.2
        = ((df.filter (fun msg => msg.user = user2)).map Message.message).countP
            containsLowEffort := rfl
      _ ≤ ((df.filter (fun msg => msg.user = user2)).map Message.message).length :=
          List.countP_le_length _
      _ = (df.filter (fun msg => msg.user = user2)).length := List.length_map _ _
  · exact question_msgs_le_marks _

/-- C8: the low-effort counts are exactly the number of each user's messages
containing one of `ok`, `k`, `hmm`, `lol`, `haha`, `yeah` as a whole word,
case-insensitively: `"ok"` and `"OK"` (and `"ok"` inside a sentence) count,
`"okay"` and `"tokay gecko"` do not. -/
theorem low_effort_whole_word_matching (df : List Message) (user1 user2 : String) :
    (analyze_chat_dynamics df user1 user2).2.1.1 =
      ((df.filter (fun msg => msg.user = user1)).map Message.message).countP
        containsLowEffort ∧
    (analyze_chat_dynamics df user1 user2).2.1.2 =
      ((df.filter (fun msg => msg.user = user2)).map Message.message).countP
        containsLowEffort ∧
    containsLowEffort "ok" = true ∧
    containsLowEffort "OK" = true ∧
    containsLowEffort "okay" = false ∧
    containsLowEffort "i am ok now" = true ∧
    containsLowEffort "tokay gecko" = false :=
  ⟨rfl, rfl, by decide, by decide, by decide, by decide, by decide⟩

/-- C5: for a non-empty record sequence the starters list begins with the
first message's author, its length is exactly one plus the number of
adjacent gaps strictly over six hours, and summing the per-author
`analyze_starters` counts over all authors recovers exactly that total. -/
theorem starter_counts_sum_to_new_conversations (df : List Message) (h : df ≠ []) :
    (startersList df).head? = df.head?.map Message.user ∧
    (startersList df).length =
      1 + (df.zip df.tail).countP (fun p => decide (360 < p.2.timestamp - p.1.timestamp)) ∧
    (∑ a in (startersList df).toFinset, analyze_starters df a) =
      1 + (df.zip df.tail).countP (fun p => decide (360 < p.2.timestamp - p.1.timestamp)) := by
  obtain ⟨msg0, rest, rfl⟩ := List.exists_cons_of_ne_nil h
  have hlen : (startersList (msg0 :: rest)).length =
      1 + ((msg0 :: rest).zip (msg0 :: rest).tail).countP
        (fun p => decide (360 < p.2.timestamp - p.1.timestamp)) := by
    simp only [startersList, List.length_cons, List.length_map,
      List.countP_eq_length_filter]
    omega
  refine ⟨by simp [startersList], hlen, ?_⟩
  rw [← hlen]
  simp only [analyze_starters]
  have hms := Multiset.toFinset_sum_count_eq (↑(startersList (msg0 :: rest)) : Multiset String)
  simpa using hms

/-- Witness for `starter_counts_sum_to_new_conversations` on a concrete
three-message transcript with one six-hour gap. -/
theorem starter_counts_sum_witness :
    (∑ a in (startersList
        [(⟨0, "A", "x"⟩ : Message), ⟨100, "B", "y"⟩, ⟨500, "B", "z"⟩]).toFinset,
      analyze_starters [(⟨0, "A", "x"⟩ : Message), ⟨100, "B", "y"⟩, ⟨500, "B", "z"⟩] a) =
      1 + ([(⟨0, "A", "x"⟩ : Message), ⟨100, "B", "y"⟩, ⟨500, "B", "z"⟩].zip
          [(⟨0, "A", "x"⟩ : Message), ⟨100, "B", "y"⟩, ⟨500, "B", "z"⟩].tail).countP
        (fun p => decide (360 < p.2.timestamp - p.1.timestamp)) :=
  (starter_counts_sum_to_new_conversations
    [⟨0, "A", "x"⟩, ⟨100, "B", "y"⟩, ⟨500, "B", "z"⟩] (by decide)).2.2
